import Mathlib

/-!
Shallow embedding of the codex tool-execution policy layer: the Shell and
ApplyPatch tool runtimes (`core/src/tools/runtimes/shell.rs`,
`core/src/tools/runtimes/apply_patch.rs`) and the default tool executor
(`core/src/tools/executor.rs`). Paths are embedded as `String`, the
environment `HashMap` as an association list, and the asynchronous approval
flow as a pure function over an explicit approval cache, with the reviewer
modelled as a function argument and a `prompted` flag recording whether
`request_command_approval` was invoked.
-/

namespace Codex

/-- `ReviewDecision` from `codex_protocol::protocol` (declared outside src/).
Modelled from the spec: outcome of a review — granted-once, granted-for-session,
denied, or abort. -/
inductive ReviewDecision where
  | Approved
  | ApprovedForSession
  | Denied
  | Abort
deriving DecidableEq

/-- A decision grants execution (once or for the session). -/
def ReviewDecision.isGranting : ReviewDecision → Bool
  | .Approved => true
  | .ApprovedForSession => true
  | .Denied => false
  | .Abort => false

/-- `AskForApproval` from `codex_protocol::protocol` (declared outside src/).
Modelled from the spec: the externally supplied approval policy enum
(never-ask / ask-on-failure / ask-on-request / always-ask). -/
inductive AskForApproval where
  | UnlessTrusted
  | OnFailure
  | OnRequest
  | Never
deriving DecidableEq

/-- `ApprovalRequirement` from `tools/sandboxing.rs` (declared outside src/).
Modelled from the spec: an optional override of the session's default approval
policy for a specific request (skip prompting, force prompting, or forbid). -/
inductive ApprovalRequirement where
  | Skip
  | NeedsApproval
  | Forbidden
deriving DecidableEq

/-- `SandboxRetryData` from `tools/sandboxing.rs` (declared outside src/):
the minimal facts (command, cwd) explaining a retry to a reviewer. -/
structure SandboxRetryData where
  command : List String
  cwd : String
deriving DecidableEq

/-- `CommandSpec` from `sandboxing.rs` (declared outside src/), with the field
set used by the executor: program, args, cwd, expiration, env mapping,
optional escalation flag, optional justification. -/
structure CommandSpec where
  program : String
  args : List String
  cwd : String
  expiration : Option Nat
  env : List (String × String)
  with_escalated_permissions : Option Bool
  justification : Option String
deriving DecidableEq

/-- `ToolError` from `tools/sandboxing.rs` (declared outside src/), with the
taxonomy of §7: Rejected, SandboxDenied, ExecutionFailed, ApprovalDenied,
plus the `Codex` wrapper used by the executor. -/
inductive ToolError where
  | Rejected (msg : String)
  | SandboxDenied (msg : String)
  | ExecutionFailed (msg : String)
  | ApprovalDenied (msg : String)
  | Codex (msg : String)
deriving DecidableEq

/-- `ShellRequest` (shell.rs, lines 24-33). -/
structure ShellRequest where
  command : List String
  cwd : String
  timeout_ms : Option Nat
  env : List (String × String)
  with_escalated_permissions : Option Bool
  justification : Option String
  approval_requirement : ApprovalRequirement
deriving DecidableEq

/-- `ApplyPatchRequest` (apply_patch.rs, lines 24-31). -/
structure ApplyPatchRequest where
  patch : String
  cwd : String
  timeout_ms : Option Nat
  user_explicitly_approved : Bool
  codex_exe : Option String
deriving DecidableEq

/-- `ShellRequest::sandbox_retry_data` (shell.rs, lines 35-42). -/
def ShellRequest.sandbox_retry_data (req : ShellRequest) : Option SandboxRetryData :=
  some { command := req.command, cwd := req.cwd }

/-- `ApplyPatchRequest::sandbox_retry_data` (apply_patch.rs, lines 33-37). -/
def ApplyPatchRequest.sandbox_retry_data (_req : ApplyPatchRequest) : Option SandboxRetryData :=
  none

/-- Shell `ApprovalKey` (shell.rs, lines 47-52). -/
structure ShellApprovalKey where
  command : List String
  cwd : String
  escalated : Bool
deriving DecidableEq

/-- ApplyPatch `ApprovalKey` (apply_patch.rs, lines 42-46). -/
structure ApplyPatchApprovalKey where
  patch : String
  cwd : String
deriving DecidableEq

/-- `ShellRuntime::approval_key` (shell.rs, lines 72-78). -/
def shell_approval_key (req : ShellRequest) : ShellApprovalKey :=
  { command := req.command
    cwd := req.cwd
    escalated := req.with_escalated_permissions.getD false }

/-- `ApplyPatchRuntime::approval_key` (apply_patch.rs, lines 67-72). -/
def apply_patch_approval_key (req : ApplyPatchRequest) : ApplyPatchApprovalKey :=
  { patch := req.patch, cwd := req.cwd }

/-- `ShellRuntime::wants_escalated_first_attempt` (shell.rs, lines 110-112). -/
def shell_wants_escalated_first_attempt (req : ShellRequest) : Bool :=
  req.with_escalated_permissions.getD false

/-- `ApplyPatchRuntime::wants_no_sandbox_approval` (apply_patch.rs, lines
110-112): `!matches!(policy, AskForApproval::Never)`. -/
def apply_patch_wants_no_sandbox_approval (policy : AskForApproval) : Bool :=
  !(match policy with
    | AskForApproval.Never => true
    | _ => false)

/-- `CODEX_APPLY_PATCH_ARG1` (declared in the core crate root, outside src/).
Modelled from the spec: the single fixed "apply this patch" marker argument;
the apply_patch.rs module doc names the self-invocation
`codex --codex-run-as-apply-patch`. -/
def CODEX_APPLY_PATCH_ARG1 : String := "--codex-run-as-apply-patch"

/-- Executable resolution inside `build_apply_patch_spec` (executor.rs, lines
96-101): the explicit override when present, else the result of
`std::env::current_exe()` — passed in explicitly as `currentExe` since it is
an environment lookup, not a function of the request — whose failure becomes
a `Rejected` error. -/
def resolve_codex_exe (currentExe : Except String String)
    (req : ApplyPatchRequest) : Except ToolError String :=
  match req.codex_exe with
  | some path => .ok path
  | none =>
    match currentExe with
    | .ok e => .ok e
    | .error e =>
      .error (ToolError.Rejected ("failed to determine codex exe: " ++ e))

/-- `build_apply_patch_spec` (executor.rs, lines 94-112): resolve the
executable and wrap the patch text behind the single fixed marker argument,
with an empty environment and no escalation or justification. -/
def build_apply_patch_spec (currentExe : Except String String)
    (req : ApplyPatchRequest) : Except ToolError CommandSpec :=
  match resolve_codex_exe currentExe req with
  | .error e => .error e
  | .ok exe =>
    .ok
      { program := exe
        args := [CODEX_APPLY_PATCH_ARG1, req.patch]
        cwd := req.cwd
        expiration := req.timeout_ms
        env := []
        with_escalated_permissions := none
        justification := none }

/-- `build_command_spec` (tools/runtimes module root, declared outside src/).
Modelled from the spec: a pure transform from request fields to a CommandSpec
validating argument well-formedness; Shell uses the given argument vector
directly (first element is the program, the rest the arguments). -/
def build_command_spec (command : List String) (cwd : String)
    (env : List (String × String)) (expiration : Option Nat)
    (with_escalated_permissions : Option Bool) (justification : Option String) :
    Except ToolError CommandSpec :=
  match command with
  | [] => throw (ToolError.Rejected "command args are empty")
  | program :: args =>
    pure
      { program := program
        args := args
        cwd := cwd
        expiration := expiration
        env := env
        with_escalated_permissions := with_escalated_permissions
        justification := justification }

/-- The CommandSpec built by `DefaultToolExecutor::run_shell` (executor.rs,
lines 46-59): `build_command_spec` applied to the request's fields. -/
def run_shell_spec (req : ShellRequest) : Except ToolError CommandSpec :=
  build_command_spec req.command req.cwd req.env req.timeout_ms
    req.with_escalated_permissions req.justification

/-- Decoder for the self-invocation protocol (§6): the argument vector must be
the fixed marker argument followed by the raw patch text. -/
def decode_self_invocation (args : List String) : Option String :=
  match args with
  | [marker, patch] =>
    if marker = CODEX_APPLY_PATCH_ARG1 then some patch else none
  | _ => none

/-- Whether spec construction failed with the `Rejected` error kind. -/
def isRejected (r : Except ToolError CommandSpec) : Bool :=
  match r with
  | .error (ToolError.Rejected _) => true
  | _ => false

/-- Result of one run of a runtime's `start_approval_async`: the resolved
decision, whether `request_command_approval` was invoked, and the updated
session approval cache. -/
structure ApprovalOutcome (κ : Type) where
  decision : ReviewDecision
  prompted : Bool
  cache : List κ
deriving DecidableEq

/-- `with_cached_approval` (tools/sandboxing.rs, declared outside src/).
Modelled from the spec: returns a cached decision if present (a for-session
grant retained for the session's lifetime, so later identical keys
auto-approve without a prompt); on a miss invokes the decision function once
and retains the decision when it is a for-session grant. The cache is the
list of keys holding a for-session grant. -/
def with_cached_approval {κ : Type} [DecidableEq κ] (cache : List κ) (key : κ)
    (f : Unit → ReviewDecision × Bool) : ApprovalOutcome κ :=
  if key ∈ cache then
    { decision := ReviewDecision.ApprovedForSession, prompted := false, cache := cache }
  else
    let fd := f ()
    { decision := fd.1
      prompted := fd.2
      cache := if fd.1 = ReviewDecision.ApprovedForSession then key :: cache else cache }

/-- A reviewer answering `Session::request_command_approval`, as a function of
the displayed command, cwd and optional reason (turn, call id and risk are
opaque pass-through values and are omitted). -/
abbrev Reviewer : Type := List String → String → Option String → ReviewDecision

/-- The decision closure passed to `with_cached_approval` by
`ApplyPatchRuntime::start_approval_async` (apply_patch.rs, lines 88-105):
with a retry reason it prompts the reviewer citing that reason; otherwise an
explicitly approved patch resolves to a for-session grant and any other patch
to a one-time grant, without prompting. The `Bool` records whether
`request_command_approval` was invoked. -/
def apply_patch_approval_fn (req : ApplyPatchRequest) (retry_reason : Option String)
    (reviewer : Reviewer) : ReviewDecision × Bool :=
  match retry_reason with
  | some reason => (reviewer ["apply_patch"] req.cwd (some reason), true)
  | none =>
    if req.user_explicitly_approved then (ReviewDecision.ApprovedForSession, false)
    else (ReviewDecision.Approved, false)

/-- `ApplyPatchRuntime::start_approval_async` (apply_patch.rs, lines 74-108):
the decision closure run under `with_cached_approval` at the request's
approval key, against the session cache. -/
def apply_patch_start_approval (cache : List ApplyPatchApprovalKey)
    (req : ApplyPatchRequest) (retry_reason : Option String) (reviewer : Reviewer) :
    ApprovalOutcome ApplyPatchApprovalKey :=
  with_cached_approval cache (apply_patch_approval_key req)
    (fun _ => apply_patch_approval_fn req retry_reason reviewer)

/-! Theorems settling the claims. -/

/-- C1 counterexample: an ApplyPatch approval flow started with a retry reason
present and `user_explicitly_approved = true`, against an empty session cache,
does issue a prompt to the reviewer (and resolves to whatever the reviewer
answers, here Denied) — refuting the claim that it resolves to a grant without
prompting. -/
theorem apply_patch_retry_explicit_still_prompts :
    (apply_patch_start_approval []
      { patch := "*** Begin Patch", cwd := "/repo", timeout_ms := none,
        user_explicitly_approved := true, codex_exe := none }
      (some "sandbox denied") (fun _ _ _ => ReviewDecision.Denied)).prompted = true ∧
    (apply_patch_start_approval []
      { patch := "*** Begin Patch", cwd := "/repo", timeout_ms := none,
        user_explicitly_approved := true, codex_exe := none }
      (some "sandbox denied") (fun _ _ _ => ReviewDecision.Denied)).decision =
      ReviewDecision.Denied :=
  ⟨rfl, rfl⟩

/-- C1 amended: an explicitly approved ApplyPatch request's initial (no-retry)
approval resolves without prompting and leaves a for-session grant in the
cache, so the subsequent approval flow started with a retry reason resolves to
a grant without issuing a prompt; the retry branch itself never consults
`user_explicitly_approved`. -/
theorem apply_patch_retry_after_explicit_grant
    (cache : List ApplyPatchApprovalKey) (req : ApplyPatchRequest)
    (r₁ r₂ : Reviewer) (reason : String)
    (h : req.user_explicitly_approved = true) :
    (apply_patch_start_approval cache req none r₁).prompted = false ∧
    (apply_patch_start_approval (apply_patch_start_approval cache req none r₁).cache
        req (some reason) r₂).decision = ReviewDecision.ApprovedForSession ∧
    (apply_patch_start_approval (apply_patch_start_approval cache req none r₁).cache
        req (some reason) r₂).prompted = false := by
  by_cases hk : apply_patch_approval_key req ∈ cache <;>
    simp [apply_patch_start_approval, with_cached_approval, apply_patch_approval_fn,
      h, hk]

/-- C1 amended witness. -/
theorem apply_patch_retry_after_explicit_grant_witness :
    (apply_patch_start_approval []
      { patch := "*** Begin Patch", cwd := "/repo", timeout_ms := none,
        user_explicitly_approved := true, codex_exe := none }
      none (fun _ _ _ => ReviewDecision.Denied)).prompted = false ∧
    (apply_patch_start_approval
        (apply_patch_start_approval []
          { patch := "*** Begin Patch", cwd := "/repo", timeout_ms := none,
            user_explicitly_approved := true, codex_exe := none }
          none (fun _ _ _ => ReviewDecision.Denied)).cache
        { patch := "*** Begin Patch", cwd := "/repo", timeout_ms := none,
          user_explicitly_approved := true, codex_exe := none }
        (some "sandbox denied") (fun _ _ _ => ReviewDecision.Denied)).decision =
      ReviewDecision.ApprovedForSession ∧
    (apply_patch_start_approval
        (apply_patch_start_approval []
          { patch := "*** Begin Patch", cwd := "/repo", timeout_ms := none,
            user_explicitly_approved := true, codex_exe := none }
          none (fun _ _ _ => ReviewDecision.Denied)).cache
        { patch := "*** Begin Patch", cwd := "/repo", timeout_ms := none,
          user_explicitly_approved := true, codex_exe := none }
        (some "sandbox denied") (fun _ _ _ => ReviewDecision.Denied)).prompted = false :=
  apply_patch_retry_after_explicit_grant []
    { patch := "*** Begin Patch", cwd := "/repo", timeout_ms := none,
      user_explicitly_approved := true, codex_exe := none }
    (fun _ _ _ => ReviewDecision.Denied) (fun _ _ _ => ReviewDecision.Denied)
    "sandbox denied" rfl

/-- C2: the CommandSpec built for an ApplyPatch request has exactly two
arguments — the fixed marker followed by the patch text byte-for-byte — and
decoding the self-invocation argument reproduces the original patch text. -/
theorem apply_patch_spec_roundtrip (currentExe : Except String String)
    (req : ApplyPatchRequest) (spec : CommandSpec)
    (h : build_apply_patch_spec currentExe req = .ok spec) :
    spec.args = [CODEX_APPLY_PATCH_ARG1, req.patch] ∧
    decode_self_invocation spec.args = some req.patch := by
  unfold build_apply_patch_spec at h
  cases hr : resolve_codex_exe currentExe req with
  | error e => simp [hr] at h
  | ok exe =>
    simp [hr] at h
    simp [← h, decode_self_invocation]

/-- C2 witness. -/
theorem apply_patch_spec_roundtrip_witness :
    ({ program := "/usr/bin/codex",
       args := [CODEX_APPLY_PATCH_ARG1, "*** Begin Patch"], cwd := "/repo",
       expiration := none, env := [], with_escalated_permissions := none,
       justification := none } : CommandSpec).args =
      [CODEX_APPLY_PATCH_ARG1, "*** Begin Patch"] ∧
    decode_self_invocation
      ({ program := "/usr/bin/codex",
         args := [CODEX_APPLY_PATCH_ARG1, "*** Begin Patch"], cwd := "/repo",
         expiration := none, env := [], with_escalated_permissions := none,
         justification := none } : CommandSpec).args = some "*** Begin Patch" :=
  apply_patch_spec_roundtrip (.ok "/self")
    { patch := "*** Begin Patch", cwd := "/repo", timeout_ms := none,
      user_explicitly_approved := false, codex_exe := some "/usr/bin/codex" }
    _ rfl

/-- C3: the Shell approval key is exactly the triple (command, cwd, escalation
flag) and the ApplyPatch approval key exactly the pair (patch text, cwd); two
requests of the same kind produce equal keys iff they agree on those fields. -/
theorem approval_key_structure :
    (∀ r : ShellRequest,
      shell_approval_key r =
        { command := r.command, cwd := r.cwd,
          escalated := r.with_escalated_permissions.getD false }) ∧
    (∀ a : ApplyPatchRequest,
      apply_patch_approval_key a = { patch := a.patch, cwd := a.cwd }) ∧
    (∀ r₁ r₂ : ShellRequest,
      shell_approval_key r₁ = shell_approval_key r₂ ↔
        (r₁.command = r₂.command ∧ r₁.cwd = r₂.cwd ∧
          r₁.with_escalated_permissions.getD false =
            r₂.with_escalated_permissions.getD false)) ∧
    (∀ a₁ a₂ : ApplyPatchRequest,
      apply_patch_approval_key a₁ = apply_patch_approval_key a₂ ↔
        (a₁.patch = a₂.patch ∧ a₁.cwd = a₂.cwd)) := by
  refine ⟨fun r => rfl, fun a => rfl, fun r₁ r₂ => ?_, fun a₁ a₂ => ?_⟩ <;>
    simp [shell_approval_key, apply_patch_approval_key]

/-- C4: an ApplyPatch approval flow started with no retry reason for a request
with `user_explicitly_approved = true` resolves to a granting decision without
any call to `request_command_approval`. -/
theorem apply_patch_explicit_no_prompt (cache : List ApplyPatchApprovalKey)
    (req : ApplyPatchRequest) (r : Reviewer)
    (h : req.user_explicitly_approved = true) :
    (apply_patch_start_approval cache req none r).prompted = false ∧
    ((apply_patch_start_approval cache req none r).decision).isGranting = true := by
  by_cases hk : apply_patch_approval_key req ∈ cache <;>
    simp [apply_patch_start_approval, with_cached_approval, apply_patch_approval_fn,
      h, hk, ReviewDecision.isGranting]

/-- C4 witness. -/
theorem apply_patch_explicit_no_prompt_witness :
    (apply_patch_start_approval []
      { patch := "*** Begin Patch", cwd := "/repo", timeout_ms := some 5000,
        user_explicitly_approved := true, codex_exe := none }
      none (fun _ _ _ => ReviewDecision.Denied)).prompted = false ∧
    ((apply_patch_start_approval []
      { patch := "*** Begin Patch", cwd := "/repo", timeout_ms := some 5000,
        user_explicitly_approved := true, codex_exe := none }
      none (fun _ _ _ => ReviewDecision.Denied)).decision).isGranting = true :=
  apply_patch_explicit_no_prompt []
    { patch := "*** Begin Patch", cwd := "/repo", timeout_ms := some 5000,
      user_explicitly_approved := true, codex_exe := none }
    (fun _ _ _ => ReviewDecision.Denied) rfl

/-- C5: building the ApplyPatch CommandSpec fails with the Rejected error kind
iff the request gives no executable override and the current-executable lookup
fails; with an override it never fails with Rejected. -/
theorem apply_patch_spec_rejected_iff (currentExe : Except String String)
    (req : ApplyPatchRequest) :
    isRejected (build_apply_patch_spec currentExe req) = true ↔
      (req.codex_exe = none ∧ ∃ msg, currentExe = .error msg) := by
  cases hexe : req.codex_exe <;> cases currentExe <;>
    simp [build_apply_patch_spec, resolve_codex_exe, isRejected, hexe]

/-- C6 counterexample: a concrete ApplyPatch request whose
`sandbox_retry_data` is `none` rather than the claimed (command, cwd) facts. -/
theorem apply_patch_retry_data_is_none :
    ({ patch := "*** Begin Patch", cwd := "/repo", timeout_ms := none,
       user_explicitly_approved := false,
       codex_exe := none } : ApplyPatchRequest).sandbox_retry_data = none :=
  rfl

/-- C6 amended: every Shell request yields SandboxRetryData made of its
command and cwd, while every ApplyPatch request yields no SandboxRetryData. -/
theorem sandbox_retry_data_per_kind :
    (∀ r : ShellRequest,
      r.sandbox_retry_data = some { command := r.command, cwd := r.cwd }) ∧
    (∀ a : ApplyPatchRequest, a.sandbox_retry_data = none) :=
  ⟨fun _ => rfl, fun _ => rfl⟩

/-- C7: building the CommandSpec twice from the same immutable request yields
field-for-field identical specs — trivially for Shell, and for ApplyPatch with
an explicit executable override the build is independent of the environment's
current-executable lookup. -/
theorem command_spec_build_idempotent (sreq : ShellRequest)
    (areq : ApplyPatchRequest) (p : String) (e₁ e₂ : Except String String)
    (h : areq.codex_exe = some p) :
    run_shell_spec sreq = run_shell_spec sreq ∧
    build_apply_patch_spec e₁ areq = build_apply_patch_spec e₂ areq := by
  refine ⟨rfl, ?_⟩
  simp [build_apply_patch_spec, resolve_codex_exe, h]

/-- C7 witness. -/
theorem command_spec_build_idempotent_witness :
    run_shell_spec
      { command := ["echo", "hi"], cwd := "/tmp", timeout_ms := some 1000,
        env := [], with_escalated_permissions := none, justification := none,
        approval_requirement := ApprovalRequirement.NeedsApproval } =
    run_shell_spec
      { command := ["echo", "hi"], cwd := "/tmp", timeout_ms := some 1000,
        env := [], with_escalated_permissions := none, justification := none,
        approval_requirement := ApprovalRequirement.NeedsApproval } ∧
    build_apply_patch_spec (.ok "/a")
      { patch := "*** Begin Patch", cwd := "/repo", timeout_ms := none,
        user_explicitly_approved := false, codex_exe := some "/usr/bin/codex" } =
    build_apply_patch_spec (.error "no exe")
      { patch := "*** Begin Patch", cwd := "/repo", timeout_ms := none,
        user_explicitly_approved := false, codex_exe := some "/usr/bin/codex" } :=
  command_spec_build_idempotent
    { command := ["echo", "hi"], cwd := "/tmp", timeout_ms := some 1000,
      env := [], with_escalated_permissions := none, justification := none,
      approval_requirement := ApprovalRequirement.NeedsApproval }
    { patch := "*** Begin Patch", cwd := "/repo", timeout_ms := none,
      user_explicitly_approved := false, codex_exe := some "/usr/bin/codex" }
    "/usr/bin/codex" (.ok "/a") (.error "no exe") rfl

/-- C8: the CommandSpec built for an ApplyPatch request always carries an
empty environment mapping, no escalation flag, and no justification. -/
theorem apply_patch_spec_minimal (currentExe : Except String String)
    (req : ApplyPatchRequest) (spec : CommandSpec)
    (h : build_apply_patch_spec currentExe req = .ok spec) :
    spec.env = [] ∧ spec.with_escalated_permissions = none ∧
      spec.justification = none := by
  unfold build_apply_patch_spec at h
  cases hr : resolve_codex_exe currentExe req with
  | error e => simp [hr] at h
  | ok exe =>
    simp [hr] at h
    simp [← h]

/-- C8 witness. -/
theorem apply_patch_spec_minimal_witness :
    ({ program := "/usr/bin/codex",
       args := [CODEX_APPLY_PATCH_ARG1, "hello"], cwd := "/repo",
       expiration := some 9, env := [], with_escalated_permissions := none,
       justification := none } : CommandSpec).env = [] ∧
    ({ program := "/usr/bin/codex",
       args := [CODEX_APPLY_PATCH_ARG1, "hello"], cwd := "/repo",
       expiration := some 9, env := [], with_escalated_permissions := none,
       justification := none } : CommandSpec).with_escalated_permissions = none ∧
    ({ program := "/usr/bin/codex",
       args := [CODEX_APPLY_PATCH_ARG1, "hello"], cwd := "/repo",
       expiration := some 9, env := [], with_escalated_permissions := none,
       justification := none } : CommandSpec).justification = none :=
  apply_patch_spec_minimal (.ok "/self")
    { patch := "hello", cwd := "/repo", timeout_ms := some 9,
      user_explicitly_approved := true, codex_exe := some "/usr/bin/codex" }
    _ rfl

/-- C9: two Shell requests agreeing on command and cwd, one with no escalation
flag and one with an explicit `some false`, produce equal approval keys. -/
theorem shell_key_none_eq_some_false (r₁ r₂ : ShellRequest)
    (hc : r₁.command = r₂.command) (hw : r₁.cwd = r₂.cwd)
    (h₁ : r₁.with_escalated_permissions = none)
    (h₂ : r₂.with_escalated_permissions = some false) :
    shell_approval_key r₁ = shell_approval_key r₂ := by
  simp [shell_approval_key, hc, hw, h₁, h₂]

/-- C9 witness. -/
theorem shell_key_none_eq_some_false_witness :
    shell_approval_key
      { command := ["ls", "-l"], cwd := "/work", timeout_ms := none, env := [],
        with_escalated_permissions := none, justification := none,
        approval_requirement := ApprovalRequirement.NeedsApproval } =
    shell_approval_key
      { command := ["ls", "-l"], cwd := "/work", timeout_ms := some 10,
        env := [("K", "V")], with_escalated_permissions := some false,
        justification := some "listing", approval_requirement := ApprovalRequirement.Skip } :=
  shell_key_none_eq_some_false
    { command := ["ls", "-l"], cwd := "/work", timeout_ms := none, env := [],
      with_escalated_permissions := none, justification := none,
      approval_requirement := ApprovalRequirement.NeedsApproval }
    { command := ["ls", "-l"], cwd := "/work", timeout_ms := some 10,
      env := [("K", "V")], with_escalated_permissions := some false,
      justification := some "listing", approval_requirement := ApprovalRequirement.Skip }
    rfl rfl rfl rfl

/-- C10: the ApplyPatch runtime requires approval for a fully unsandboxed run
under every approval policy except Never. -/
theorem apply_patch_no_sandbox_approval_iff (policy : AskForApproval) :
    apply_patch_wants_no_sandbox_approval policy = true ↔
      policy ≠ AskForApproval.Never := by
  cases policy <;> simp [apply_patch_wants_no_sandbox_approval]

end Codex
